import Mathlib

/-!
Shallow embedding of `src/components/connectAdvanced.js` (react-redux's
`connectAdvanced` HOC, update-coordination state machine).

Modelling conventions:
- JavaScript object identities (wrapper-props objects, merged child-props
  objects, store states, error objects) are modelled as `Nat`; JS reference
  equality (`===`) between two such objects is `Nat` equality.
- A JS value that may be `undefined`/`null` is an `Option`; JS truthiness of
  an object-valued slot is `Option.isSome`.
- The mutable `useRef` cells shared between the render logic, the
  `captureWrapperProps` layout effect and the `subscribeUpdates` closure
  (`lastWrapperProps`, `lastChildProps`, `renderIsScheduled`,
  `childPropsFromStoreUpdate`) form the record `InstRefs`; the
  `subscribeUpdates` closure variables (`didUnsubscribe`, `lastThrownError`)
  form the record `SubClosure`.
- The child-props selector is a function `StoreState → Props → Except Err
  Props`; a thrown exception is the `.error` case (caught by the embedding
  exactly where the source has a `try`/`catch`).
- Side effects observable from outside an instance — calls to
  `notifyNestedSubs()` and to `forceComponentUpdateDispatch(...)` — are
  returned as a call count and a list of dispatched action payloads.
-/

abbrev Props := Nat
abbrev StoreState := Nat
abbrev Err := Nat
abbrev Selector := StoreState → Props → Except Err Props

/-- The four `useRef` cells of a `ConnectFunction` instance
(`connectAdvanced.js` lines 412-415). `lastChildProps` and
`childPropsFromStoreUpdate` start out `undefined` (`none`). -/
structure InstRefs where
  lastWrapperProps : Props
  lastChildProps : Option Props
  renderIsScheduled : Bool
  childPropsFromStoreUpdate : Option Props
deriving Repr, DecidableEq

/-- The closure variables of `subscribeUpdates` (lines 72-73):
`didUnsubscribe` and `lastThrownError`. -/
structure SubClosure where
  didUnsubscribe : Bool
  lastThrownError : Option Err
deriving Repr, DecidableEq

/-- Result of one invocation of the `checkForUpdates` callback: the updated
ref cells and closure state, the number of `notifyNestedSubs()` calls made,
and the list of payloads passed to `forceComponentUpdateDispatch` (each
payload is the `error` field of the dispatched `{ type: 'STORE_UPDATED',
payload: { error } }` action). -/
structure CheckResult where
  refs : InstRefs
  closure : SubClosure
  notifyCalls : Nat
  dispatchCalls : List (Option Err)
deriving Repr, DecidableEq

/-- The `error` variable of a `checkForUpdates` pass (lines 86-97): the
caught exception when the selector threw, otherwise `undefined`. -/
def caughtError : Except Err Props → Option Err
  | .ok _ => none
  | .error e => some e

/-- `checkForUpdates` (lines 77-125). Guard on `didUnsubscribe`; read the
latest store state; run the selector on `(latestStoreState,
lastWrapperProps.current)` inside `try`/`catch`, so `newChildProps` is
`undefined` (`none`) when the selector throws; set `lastThrownError` to the
caught error, or clear it on success (lines 94-101); then either cascade
immediately (unchanged branch, lines 104-107) or record the new child props
and dispatch exactly one re-render request (lines 108-124). -/
def checkForUpdates (sel : Selector) (latestStoreState : StoreState)
    (refs : InstRefs) (c : SubClosure) : CheckResult :=
  if c.didUnsubscribe then
    ⟨refs, c, 0, []⟩
  else
    let res := sel latestStoreState refs.lastWrapperProps
    let newChildProps : Option Props := res.toOption
    let error : Option Err := caughtError res
    let c := { c with lastThrownError := error }
    if newChildProps = refs.lastChildProps then
      if ¬refs.renderIsScheduled then
        ⟨refs, c, 1, []⟩
      else
        ⟨refs, c, 0, []⟩
    else
      ⟨{ refs with
          lastChildProps := newChildProps,
          childPropsFromStoreUpdate := newChildProps,
          renderIsScheduled := true },
        c, 0, [error]⟩

/-- Result of the post-commit `captureWrapperProps` layout effect: updated
ref cells and the number of `notifyNestedSubs()` calls made. -/
structure CaptureResult where
  refs : InstRefs
  notifyCalls : Nat
deriving Repr, DecidableEq

/-- `captureWrapperProps` (lines 34-53): runs after each committed render.
Records the wrapper props and child props just rendered, clears the
scheduled-render flag, and — iff `childPropsFromStoreUpdate.current` is
truthy — clears it and cascades via `notifyNestedSubs()`. -/
def captureWrapperProps (wrapperProps : Props) (actualChildProps : Props)
    (refs : InstRefs) : CaptureResult :=
  let refs := { refs with
    lastWrapperProps := wrapperProps,
    lastChildProps := some actualChildProps,
    renderIsScheduled := false }
  if refs.childPropsFromStoreUpdate.isSome then
    ⟨{ refs with childPropsFromStoreUpdate := none }, 1⟩
  else
    ⟨refs, 0⟩

/-- The `actualChildProps` computation of a render (lines 417-440): use the
pending store-derived child props exactly when they exist and the current
wrapper props are reference-equal to `lastWrapperProps.current`; otherwise
re-run the selector on the store's current state and the current wrapper
props (which may itself throw, hence `Except`). -/
def actualChildProps (sel : Selector) (storeState : StoreState)
    (wrapperProps : Props) (refs : InstRefs) : Except Err Props :=
  match refs.childPropsFromStoreUpdate with
  | some pending =>
    if wrapperProps = refs.lastWrapperProps then .ok pending
    else sel storeState wrapperProps
  | none => sel storeState wrapperProps

/-- `storeStateUpdatesReducer` (lines 21-24): reducer state is
`[previousStateUpdateResult, updateCount]`; the action payload is modelled
by its `error` field. After any dispatch the first component is `some
payload` (the payload object `{ error }` is always truthy in JS, even when
`error` is `undefined`). -/
def storeStateUpdatesReducer (state : Option (Option Err) × Nat)
    (payload : Option Err) : Option (Option Err) × Nat :=
  (some payload, state.2 + 1)

/-- `initStateUpdates` (line 153): `[null, 0]`. -/
def initStateUpdates : Option (Option Err) × Nat := (none, 0)

/-- Lines 406-408: a render throws `previousStateUpdateResult.error` when
`previousStateUpdateResult` is truthy (a dispatch happened) and its `error`
field is truthy. -/
def renderThrownError (previousStateUpdateResult : Option (Option Err)) :
    Option Err :=
  match previousStateUpdateResult with
  | some (some e) => some e
  | _ => none

/-- The render pipeline of `ConnectFunction` restricted to the error check
and child-props computation, in source order: the latched error (lines
406-408) is thrown before `actualChildProps` is evaluated (lines 417-440). -/
def renderBody (previousStateUpdateResult : Option (Option Err))
    (sel : Selector) (storeState : StoreState) (wrapperProps : Props)
    (refs : InstRefs) : Except Err Props :=
  match renderThrownError previousStateUpdateResult with
  | some e => .error e
  | none => actualChildProps sel storeState wrapperProps refs

/-- Result of the teardown `unsubscribeWrapper` (lines 135-148):
the closure after setting `didUnsubscribe = true`, whether
`subscription.tryUnsubscribe()` was called, the value left in the
`subscription.onStateChange` slot (`none` = cleared to `null`), and the
error thrown on exit (`none` = returned normally). -/
structure TeardownResult where
  closure : SubClosure
  tryUnsubscribeCalled : Bool
  onStateChange : Option Unit
  thrown : Option Err
deriving Repr, DecidableEq

/-- `unsubscribeWrapper` (lines 135-148): mark unsubscribed, detach from the
parent (`tryUnsubscribe`), clear the callback slot, then throw
`lastThrownError` iff it is truthy. -/
def unsubscribeWrapper (c : SubClosure) : TeardownResult :=
  ⟨{ c with didUnsubscribe := true }, true, none, c.lastThrownError⟩

/-! ## Store/context resolution and subscription wiring -/

/-- The shape of an owner-supplied `props.store` value: whether its
`getState` and `dispatch` members are truthy, and the identity of the store
object itself. -/
structure PropsStore where
  hasGetState : Bool
  hasDispatch : Bool
  ident : Nat
deriving Repr, DecidableEq

/-- A notification node (`Subscription` instance) as constructed at lines
366-369: it records the store it was built for and its parent node
(`null` = attached directly to the store). -/
inductive SubNode where
  | mk (storeId : Nat) (parent : Option SubNode)

def SubNode.storeId : SubNode → Nat
  | .mk s _ => s

def SubNode.parent : SubNode → Option SubNode
  | .mk _ p => p

/-- The ambient React-Redux context value `{ store, subscription }`. -/
structure CtxValue where
  store : Option Nat
  subscription : Option SubNode

/-- Lines 328-331: `Boolean(props.store) && Boolean(props.store.getState) &&
Boolean(props.store.dispatch)`. -/
def didStoreComeFromProps (propsStore : Option PropsStore) : Bool :=
  match propsStore with
  | some s => s.hasGetState && s.hasDispatch
  | none => false

/-- Lines 334-335: `Boolean(contextValue) && Boolean(contextValue.store)`. -/
def didStoreComeFromContext (cv : Option CtxValue) : Bool :=
  match cv with
  | some v => v.store.isSome
  | none => false

/-- The error message thrown at lines 342-347 when no store is found
(development-build check, `NODE_ENV !== 'production'`). -/
def noStoreMessage (displayName : String) : String :=
  "Could not find \"store\" in the context of \"" ++
  (displayName ++
   ("\". Either wrap the root component in a <Provider>, " ++
    "or pass a custom React context provider to <Provider> and the corresponding " ++
    "React context consumer to " ++ displayName ++ " in connect options."))

/-- Store resolution (lines 328-351, with the development-build
no-store check of lines 337-348 active): throw when neither owner props nor
context yields a store, else `didStoreComeFromProps ? props.store :
contextValue.store`. -/
def resolveStore (displayName : String) (propsStore : Option PropsStore)
    (cv : Option CtxValue) : Except String (Option Nat) :=
  if ¬didStoreComeFromProps propsStore ∧ ¬didStoreComeFromContext cv then
    .error (noStoreMessage displayName)
  else if didStoreComeFromProps propsStore then
    .ok (propsStore.map (·.ident))
  else
    .ok (cv.bind (·.store))

/-- The subscription `useMemo` (lines 360-380): no node at all when the
instance is configured not to handle state changes
(`NO_SUBSCRIPTION_ARRAY`); otherwise `new Subscription(store,
didStoreComeFromProps ? null : contextValue.subscription)`. -/
def mkSubscription (shouldHandleStateChanges : Bool) (storeId : Nat)
    (fromProps : Bool) (cv : Option CtxValue) : Option SubNode :=
  if ¬shouldHandleStateChanges then none
  else some (.mk storeId (if fromProps then none else cv.bind (·.subscription)))

/-- `overriddenContextValue` (lines 384-398): pass the ancestor context
through unchanged when the store came from props; otherwise spread the
ancestor context and override its `subscription` field with this instance's
node (spreading a `null` context yields an object with only the new
`subscription`, hence the `cv.bind`). -/
def overriddenContextValue (fromProps : Bool) (cv : Option CtxValue)
    (subscription : Option SubNode) : Option CtxValue :=
  if fromProps then cv
  else some { store := cv.bind (·.store), subscription := subscription }

/-- The context value actually provided to descendants by `renderedChild`
(lines 488-501): a `Provider` with `overriddenContextValue` when the
instance handles state changes, and no provider at all (`none`: the
ancestor's context remains visible untouched) otherwise. -/
def contextForDescendants (shouldHandleStateChanges fromProps : Bool)
    (cv : Option CtxValue) (subscription : Option SubNode) : Option (Option CtxValue) :=
  if shouldHandleStateChanges then
    some (overriddenContextValue fromProps cv subscription)
  else none

/-! ## Wrapper-props destructuring -/

/-- Owner props as an ordered association list of (property name, value
identity). -/
abbrev PropsMap := List (String × Nat)

/-- Line 300: `const { reactReduxForwardedRef, ...wrapperProps } = props`.
Returns the extracted `reactReduxForwardedRef` value and the rest object
`wrapperProps` — every property of `props` except `reactReduxForwardedRef`
(note: the `context` property is not removed). -/
def destructureWrapperProps (props : PropsMap) : Option Nat × PropsMap :=
  (props.lookup "reactReduxForwardedRef",
   props.filter (fun kv => kv.1 ≠ "reactReduxForwardedRef"))

/-! ## Claim theorems -/

/-- C1: for every store-change notification delivered to a subscribed,
not-torn-down instance, if the selector succeeds and returns a result
reference-equal to the recorded `lastChildProps`, then no re-render is
dispatched, the ref cells are untouched, and `notifyNestedSubs` is called
immediately if and only if no render is currently scheduled — exactly one
cascade when none is scheduled, none otherwise. -/
theorem c1_unchanged_output_cascades_without_render
    (sel : Selector) (st : StoreState) (refs : InstRefs) (c : SubClosure)
    (r : Props)
    (hsub : c.didUnsubscribe = false)
    (hok : sel st refs.lastWrapperProps = Except.ok r)
    (heq : refs.lastChildProps = some r) :
    checkForUpdates sel st refs c =
      ⟨refs, { c with lastThrownError := none },
       if refs.renderIsScheduled then 0 else 1, []⟩ := by
  cases hsched : refs.renderIsScheduled <;>
    simp [checkForUpdates, hsub, hok, heq, hsched, caughtError, Except.toOption]

/-- Witness for C1 at a concrete input. -/
theorem c1_witness :
    checkForUpdates (fun _ _ => Except.ok 5) 0
        ⟨0, some 5, false, none⟩ ⟨false, some 3⟩ =
      ⟨⟨0, some 5, false, none⟩, ⟨false, none⟩, 1, []⟩ := by
  have h := c1_unchanged_output_cascades_without_render
    (fun _ _ => Except.ok 5) 0 ⟨0, some 5, false, none⟩ ⟨false, some 3⟩ 5
    rfl rfl rfl
  simpa using h

/-- C2 counterexample: the claim covers every pass "whose derivation output
differs from the last merged props (or whose derivation threw)" and says
such a pass requests exactly one re-render. But the code branches only on
`newChildProps === lastChildProps.current` (line 104), and a throwing pass
leaves `newChildProps` `undefined`. Starting from a committed state
(`lastChildProps = some 5`): a first throwing pass sets
`lastChildProps.current = undefined` (line 113) and dispatches; the render
it schedules throws at line 407, so `captureWrapperProps` never runs; a
second throwing pass then sees `undefined === undefined`, takes the
unchanged branch, and requests no re-render at all (and, the render being
scheduled, does not cascade either) — contradicting the claim. Conjuncts 1-3
evaluate the first pass (producing exactly the state fed to the second),
conjuncts 4-5 the second. -/
theorem c2_counterexample :
    (checkForUpdates (fun _ _ => Except.error 3) 0
        ⟨0, some 5, false, none⟩ ⟨false, none⟩).refs = ⟨0, none, true, none⟩ ∧
    (checkForUpdates (fun _ _ => Except.error 3) 0
        ⟨0, some 5, false, none⟩ ⟨false, none⟩).closure = ⟨false, some 3⟩ ∧
    (checkForUpdates (fun _ _ => Except.error 3) 0
        ⟨0, some 5, false, none⟩ ⟨false, none⟩).dispatchCalls = [some 3] ∧
    (checkForUpdates (fun _ _ => Except.error 3) 0
        ⟨0, none, true, none⟩ ⟨false, some 3⟩).dispatchCalls = [] ∧
    (checkForUpdates (fun _ _ => Except.error 3) 0
        ⟨0, none, true, none⟩ ⟨false, some 3⟩).notifyCalls = 0 := by
  decide

/-- C2 (amended): a pass whose selector output — the new derived props, or
`undefined` when the selector threw — differs from the recorded
`lastChildProps` records that output as both `lastChildProps` and the
pending `childPropsFromStoreUpdate`, sets the scheduled-render flag,
dispatches exactly one re-render request and does not cascade (a throwing
pass whose `undefined` output equals an already-`undefined` `lastChildProps`
instead takes the unchanged branch and dispatches nothing, see the
counterexample); the post-commit `captureWrapperProps` step records the
just-rendered wrapper and child props, clears the scheduled-render flag,
clears the pending value, and calls `notifyNestedSubs` exactly once if and
only if a pending store-update value was present. -/
theorem c2_changed_output_schedules_render
    (sel : Selector) (st : StoreState) (refs : InstRefs) (c : SubClosure)
    (hsub : c.didUnsubscribe = false)
    (hne : (sel st refs.lastWrapperProps).toOption ≠ refs.lastChildProps) :
    checkForUpdates sel st refs c =
      ⟨{ refs with
          lastChildProps := (sel st refs.lastWrapperProps).toOption,
          childPropsFromStoreUpdate := (sel st refs.lastWrapperProps).toOption,
          renderIsScheduled := true },
        { c with lastThrownError := caughtError (sel st refs.lastWrapperProps) },
        0, [caughtError (sel st refs.lastWrapperProps)]⟩ ∧
    (∀ (w a : Props) (refs₂ : InstRefs),
      captureWrapperProps w a refs₂ =
        ⟨{ lastWrapperProps := w, lastChildProps := some a,
           renderIsScheduled := false, childPropsFromStoreUpdate := none },
         if refs₂.childPropsFromStoreUpdate.isSome then 1 else 0⟩) := by
  constructor
  · simp [checkForUpdates, hsub, hne]
  · intro w a refs₂
    cases hp : refs₂.childPropsFromStoreUpdate <;>
      simp [captureWrapperProps, hp]

/-- Witness for C2 at a concrete input. -/
theorem c2_witness :
    checkForUpdates (fun _ _ => Except.ok 7) 0
        ⟨0, some 5, false, none⟩ ⟨false, none⟩ =
      ⟨⟨0, some 7, true, some 7⟩, ⟨false, none⟩, 0, [none]⟩ ∧
    captureWrapperProps 1 7 ⟨0, some 7, true, some 7⟩ =
      ⟨⟨1, some 7, false, none⟩, 1⟩ := by
  have h := c2_changed_output_schedules_render
    (fun _ _ => Except.ok 7) 0 ⟨0, some 5, false, none⟩ ⟨false, none⟩
    rfl (by decide)
  exact ⟨by simpa using h.1, by simpa using h.2 1 7 ⟨0, some 7, true, some 7⟩⟩

/-- C3: on every render, the merged child props are the pending
store-derived value exactly when such a pending value exists and the current
wrapper props are reference-equal to the last recorded wrapper props; in
every other case they are recomputed by running the selector on the store's
current state and the current wrapper props. -/
theorem c3_render_merged_props_choice
    (sel : Selector) (st : StoreState) (w : Props) (refs : InstRefs) :
    (∀ p, refs.childPropsFromStoreUpdate = some p →
      (w = refs.lastWrapperProps →
        actualChildProps sel st w refs = Except.ok p) ∧
      (w ≠ refs.lastWrapperProps →
        actualChildProps sel st w refs = sel st w)) ∧
    (refs.childPropsFromStoreUpdate = none →
      actualChildProps sel st w refs = sel st w) := by
  refine ⟨fun p hp => ⟨fun hw => ?_, fun hw => ?_⟩, fun hn => ?_⟩
  · simp [actualChildProps, hp, hw]
  · simp only [actualChildProps, hp]
    rw [if_neg hw]
  · simp [actualChildProps, hn]

/-- Witness for C3 at concrete inputs: with a pending value and unchanged
wrapper props the pending value is rendered; with changed wrapper props the
selector is re-run. -/
theorem c3_witness :
    actualChildProps (fun _ _ => Except.ok 9) 0 2 ⟨2, some 1, true, some 4⟩ =
      Except.ok 4 ∧
    actualChildProps (fun _ _ => Except.ok 9) 0 3 ⟨2, some 1, true, some 4⟩ =
      Except.ok 9 := by
  have h₁ := (c3_render_merged_props_choice
    (fun _ _ => Except.ok 9) 0 2 ⟨2, some 1, true, some 4⟩).1 4 rfl
  have h₂ := (c3_render_merged_props_choice
    (fun _ _ => Except.ok 9) 0 3 ⟨2, some 1, true, some 4⟩).1 4 rfl
  exact ⟨h₁.1 rfl, h₂.2 (by decide)⟩

/-- C4 counterexample: the claim says a throwing pass always requests a
re-render with the error recorded. But when `lastChildProps.current` is
already `undefined` — a state the code itself produces: a first throwing
pass assigns `undefined` to it at line 113 and the render it schedules
throws at line 407 before `captureWrapperProps` can restore it — a further
throwing pass compares `undefined === undefined`, takes the unchanged
branch, and requests no re-render, so the new error is latched but never
surfaced by a render. Conjuncts 1-2 evaluate the first throwing pass from a
committed state (producing exactly the state fed to the second), conjuncts
3-5 the second throwing pass: no dispatch, no cascade, error latched only. -/
theorem c4_counterexample :
    (checkForUpdates (fun _ _ => Except.error 7) 1
        ⟨1, some 4, false, none⟩ ⟨false, none⟩).refs = ⟨1, none, true, none⟩ ∧
    (checkForUpdates (fun _ _ => Except.error 7) 1
        ⟨1, some 4, false, none⟩ ⟨false, none⟩).closure = ⟨false, some 7⟩ ∧
    (checkForUpdates (fun _ _ => Except.error 9) 1
        ⟨1, none, true, none⟩ ⟨false, some 7⟩).dispatchCalls = [] ∧
    (checkForUpdates (fun _ _ => Except.error 9) 1
        ⟨1, none, true, none⟩ ⟨false, some 7⟩).notifyCalls = 0 ∧
    (checkForUpdates (fun _ _ => Except.error 9) 1
        ⟨1, none, true, none⟩ ⟨false, some 7⟩).closure.lastThrownError =
      some 9 := by
  decide

/-- C4 (amended): when the selector throws during a change-detection pass
and the recorded `lastChildProps` is defined — which fails only after a
prior throwing pass whose scheduled render has not yet committed (see the
counterexample) — the pass does not propagate the exception (its only
outward effects are the dispatch; no cascade); it dispatches exactly one
re-render request carrying the error and latches the error in
`lastThrownError`; after the reducer processes that dispatch, the next
render throws exactly that error object before the child-props computation
is consulted (the result is `.error e` for every selector, store state and
wrapper props); and any subsequent successful pass clears the latched
error. -/
theorem c4_selector_error_deferred_to_render
    (sel : Selector) (st : StoreState) (refs : InstRefs) (c : SubClosure)
    (e : Err)
    (hsub : c.didUnsubscribe = false)
    (hsome : refs.lastChildProps.isSome)
    (herr : sel st refs.lastWrapperProps = Except.error e) :
    (checkForUpdates sel st refs c).dispatchCalls = [some e] ∧
    (checkForUpdates sel st refs c).notifyCalls = 0 ∧
    (checkForUpdates sel st refs c).closure.lastThrownError = some e ∧
    (∀ (s : Option (Option Err) × Nat),
      (storeStateUpdatesReducer s (some e)).1 = some (some e)) ∧
    (∀ (sel₂ : Selector) (st₂ : StoreState) (w : Props) (refs₂ : InstRefs),
      renderBody (some (some e)) sel₂ st₂ w refs₂ = Except.error e) ∧
    (∀ (sel₂ : Selector) (st₂ : StoreState) (refs₂ : InstRefs)
       (c₂ : SubClosure) (p : Props),
      c₂.didUnsubscribe = false →
      sel₂ st₂ refs₂.lastWrapperProps = Except.ok p →
      (checkForUpdates sel₂ st₂ refs₂ c₂).closure.lastThrownError = none) := by
  obtain ⟨q, hq⟩ := Option.isSome_iff_exists.mp hsome
  refine ⟨?_, ?_, ?_, fun s => rfl, fun sel₂ st₂ w refs₂ => rfl, ?_⟩
  · simp [checkForUpdates, hsub, herr, hq, caughtError, Except.toOption]
  · simp [checkForUpdates, hsub, herr, hq, caughtError, Except.toOption]
  · simp [checkForUpdates, hsub, herr, hq, caughtError, Except.toOption]
  · intro sel₂ st₂ refs₂ c₂ p hsub₂ hok₂
    cases hsched : refs₂.renderIsScheduled <;>
      (simp [checkForUpdates, hsub₂, hok₂, hsched, caughtError]
       split <;> rfl)

/-- Witness for C4 at a concrete input: selector throws error 3, last child
props present. -/
theorem c4_witness :
    (checkForUpdates (fun _ _ => Except.error 3) 0
        ⟨0, some 5, false, none⟩ ⟨false, none⟩).dispatchCalls = [some 3] ∧
    renderBody (some (some 3)) (fun _ _ => Except.ok 9) 0 1
        ⟨0, some 5, false, none⟩ = Except.error 3 := by
  have h := c4_selector_error_deferred_to_render
    (fun _ _ => Except.error 3) 0 ⟨0, some 5, false, none⟩ ⟨false, none⟩ 3
    rfl rfl rfl
  exact ⟨h.1, h.2.2.2.2.1 (fun _ _ => Except.ok 9) 0 1 ⟨0, some 5, false, none⟩⟩

/-- C5: the teardown marks the instance unsubscribed, and once
`didUnsubscribe` is `true` every invocation of `checkForUpdates` returns on
entry with the ref cells and closure unchanged, zero `notifyNestedSubs`
calls and zero dispatches — for every selector and every store state, so
neither the store nor the selector is consulted. -/
theorem c5_torn_down_callback_inert
    (c : SubClosure) (hc : c.didUnsubscribe = true) :
    (∀ (sel : Selector) (st : StoreState) (refs : InstRefs),
      checkForUpdates sel st refs c = ⟨refs, c, 0, []⟩) ∧
    (∀ (c₂ : SubClosure),
      (unsubscribeWrapper c₂).closure.didUnsubscribe = true) := by
  exact ⟨fun sel st refs => by simp [checkForUpdates, hc], fun c₂ => rfl⟩

/-- Witness for C5 at a concrete input. -/
theorem c5_witness :
    checkForUpdates (fun _ _ => Except.ok 8) 2
        ⟨0, some 5, false, none⟩ ⟨true, some 4⟩ =
      ⟨⟨0, some 5, false, none⟩, ⟨true, some 4⟩, 0, []⟩ :=
  (c5_torn_down_callback_inert ⟨true, some 4⟩ rfl).1
    (fun _ _ => Except.ok 8) 2 ⟨0, some 5, false, none⟩

/-- C6: an owner-props `store` object exposing both `getState` and
`dispatch` is resolved in preference to any ambient context store; and when
neither owner props nor ambient context yields a store, resolution throws
the "Could not find \"store\"" configuration error, whose message contains
the component's display name. -/
theorem c6_store_resolution
    (displayName : String) (ps : PropsStore) (cv : Option CtxValue)
    (hg : ps.hasGetState = true) (hd : ps.hasDispatch = true) :
    resolveStore displayName (some ps) cv = Except.ok (some ps.ident) ∧
    (∀ (dn : String) (ps₂ : Option PropsStore) (cv₂ : Option CtxValue),
      didStoreComeFromProps ps₂ = false →
      didStoreComeFromContext cv₂ = false →
      ∃ pre post,
        resolveStore dn ps₂ cv₂ = Except.error (pre ++ (dn ++ post))) := by
  constructor
  · simp [resolveStore, didStoreComeFromProps, hg, hd]
  · intro dn ps₂ cv₂ hp₂ hc₂
    refine ⟨"Could not find \"store\" in the context of \"",
      "\". Either wrap the root component in a <Provider>, " ++
      "or pass a custom React context provider to <Provider> and the corresponding " ++
      "React context consumer to " ++ dn ++ " in connect options.", ?_⟩
    simp [resolveStore, hp₂, hc₂, noStoreMessage]

/-- Witness for C6 at concrete inputs: a props store with both capabilities
wins over a context store; with neither source present resolution fails with
the display-name-carrying message. -/
theorem c6_witness :
    resolveStore "ConnectAdvanced(C)" (some ⟨true, true, 11⟩)
        (some ⟨some 22, none⟩) = Except.ok (some 11) ∧
    ∃ pre post,
      resolveStore "ConnectAdvanced(C)" none none =
        Except.error (pre ++ ("ConnectAdvanced(C)" ++ post)) := by
  have h := c6_store_resolution "ConnectAdvanced(C)" ⟨true, true, 11⟩
    (some ⟨some 22, none⟩) rfl rfl
  exact ⟨h.1, h.2 "ConnectAdvanced(C)" none none rfl rfl⟩

/-- C7: for an instance that handles state changes, the constructed
notification node records the resolved store and has parent `null` exactly
when the store came from owner props and the ambient context's node
otherwise; the context provided to descendants is the ancestor's context
unchanged when the store came from owner props, and otherwise the ancestor's
context with its `subscription` field replaced by this instance's own node;
when the instance is configured not to handle state changes, no node is
created. -/
theorem c7_subscription_wiring (storeId : Nat) (cv : Option CtxValue) :
    (∀ fromProps : Bool,
      ∃ node, mkSubscription true storeId fromProps cv = some node ∧
        node.storeId = storeId ∧
        node.parent =
          (if fromProps then none else cv.bind (·.subscription)) ∧
        contextForDescendants true fromProps cv
            (mkSubscription true storeId fromProps cv) =
          some (if fromProps then cv
                else some ⟨cv.bind (·.store),
                           mkSubscription true storeId fromProps cv⟩)) ∧
    (∀ fromProps : Bool,
      mkSubscription false storeId fromProps cv = none) ∧
    (∀ fromProps : Bool,
      contextForDescendants false fromProps cv
        (mkSubscription false storeId fromProps cv) = none) := by
  refine ⟨fun fromProps => ?_, fun fromProps => rfl, fun fromProps => rfl⟩
  cases fromProps <;>
    exact ⟨_, rfl, rfl, rfl, by
      simp [contextForDescendants, overriddenContextValue, mkSubscription]⟩

/-- C8 counterexample: the claim says `lastChildProps` ("lastMergedProps")
is updated only when a render commits. But a change-detection pass whose
output differs updates it immediately at scheduling time (line 113), before
the render it requests has committed: starting from `lastChildProps = some
1` with no pending value and no scheduled render, a pass whose selector
returns `2` leaves `lastChildProps = some 2` while also dispatching the
render request (so no commit has happened yet between the pass and that
render). -/
theorem c8_counterexample :
    (checkForUpdates (fun _ _ => Except.ok 2) 0
        ⟨0, some 1, false, none⟩ ⟨false, none⟩).refs.lastChildProps = some 2 ∧
    (checkForUpdates (fun _ _ => Except.ok 2) 0
        ⟨0, some 1, false, none⟩ ⟨false, none⟩).dispatchCalls = [none] ∧
    (⟨0, some 1, false, none⟩ : InstRefs).lastChildProps = some 1 := by
  decide

/-- C8 (amended): `lastChildProps` is updated at commit to the just-rendered
merged props, and additionally a subscribed change-detection pass updates it
eagerly — it becomes the pass's own output whenever that output differs from
the recorded value, and is left unchanged when the output is
reference-equal. -/
theorem c8_last_child_props_update
    (sel : Selector) (st : StoreState) (refs : InstRefs) (c : SubClosure)
    (hsub : c.didUnsubscribe = false) :
    (checkForUpdates sel st refs c).refs.lastChildProps =
      (if (sel st refs.lastWrapperProps).toOption = refs.lastChildProps
       then refs.lastChildProps
       else (sel st refs.lastWrapperProps).toOption) ∧
    (∀ (w a : Props) (refs₂ : InstRefs),
      (captureWrapperProps w a refs₂).refs.lastChildProps = some a) := by
  constructor
  · by_cases hc : (sel st refs.lastWrapperProps).toOption = refs.lastChildProps
    · cases hsched : refs.renderIsScheduled <;>
        simp [checkForUpdates, hsub, hc, hsched]
    · simp [checkForUpdates, hsub, hc]
  · intro w a refs₂
    cases hp : refs₂.childPropsFromStoreUpdate <;>
      simp [captureWrapperProps, hp]

/-- Witness for the amended C8 at a concrete input. -/
theorem c8_witness :
    (checkForUpdates (fun _ _ => Except.ok 2) 0
        ⟨0, some 1, false, none⟩ ⟨false, none⟩).refs.lastChildProps =
      some 2 ∧
    (captureWrapperProps 3 4 ⟨0, some 1, false, none⟩).refs.lastChildProps =
      some 4 := by
  have h := c8_last_child_props_update (fun _ _ => Except.ok 2) 0
    ⟨0, some 1, false, none⟩ ⟨false, none⟩ rfl
  exact ⟨by simpa using h.1, h.2 3 4 ⟨0, some 1, false, none⟩⟩

/-- C9 counterexample: the claim says both the ref-forwarding target and the
context-override property are excluded from the recorded owner props. But
the destructuring at line 300 removes only `reactReduxForwardedRef`: for
owner props carrying a `context` property, that property remains in the
resulting `wrapperProps` (and is therefore recorded and passed to the
selector). -/
theorem c9_counterexample :
    (destructureWrapperProps [("context", 7)]).2 = [("context", 7)] ∧
    ("context", 7) ∈ (destructureWrapperProps [("context", 7)]).2 := by
  decide

/-- C9 (amended): the recorded owner props contain every owner-supplied
property except `reactReduxForwardedRef` alone — a property named `context`
is not excluded — and the extracted forwarded-ref value is exactly the
`reactReduxForwardedRef` entry of the owner props. -/
theorem c9_wrapper_props_contents (props : PropsMap) :
    (∀ kv : String × Nat,
      kv ∈ (destructureWrapperProps props).2 ↔
        (kv ∈ props ∧ kv.1 ≠ "reactReduxForwardedRef")) ∧
    (destructureWrapperProps props).1 =
      props.lookup "reactReduxForwardedRef" := by
  refine ⟨fun kv => ?_, rfl⟩
  simp [destructureWrapperProps, List.mem_filter]

/-- Witness for the amended C9 at a concrete input: `context` survives the
destructuring, `reactReduxForwardedRef` does not. -/
theorem c9_witness :
    (("context", 7) ∈
      (destructureWrapperProps
        [("context", 7), ("reactReduxForwardedRef", 1), ("x", 2)]).2) ∧
    ¬(("reactReduxForwardedRef", 1) ∈
      (destructureWrapperProps
        [("context", 7), ("reactReduxForwardedRef", 1), ("x", 2)]).2) := by
  have h := c9_wrapper_props_contents
    [("context", 7), ("reactReduxForwardedRef", 1), ("x", 2)]
  constructor
  · exact (h.1 ("context", 7)).mpr (by decide)
  · intro hmem
    exact absurd ((h.1 ("reactReduxForwardedRef", 1)).mp hmem).2 (by decide)

/-- C10: the teardown marks the instance unsubscribed, calls
`tryUnsubscribe` to detach from the parent, clears the `onStateChange`
callback slot, and throws exactly the latched `lastThrownError` — so it
throws if and only if the latch is non-empty; and for every subscribed
change-detection pass the latch afterwards is precisely the error of that
pass (`none` when the pass succeeded), so the latch is non-empty exactly
when the most recent pass threw and no later pass succeeded. -/
theorem c10_teardown_rethrows_latched_error (c : SubClosure) :
    unsubscribeWrapper c =
      ⟨{ c with didUnsubscribe := true }, true, none, c.lastThrownError⟩ ∧
    ((unsubscribeWrapper c).thrown = none ↔ c.lastThrownError = none) ∧
    (∀ (sel : Selector) (st : StoreState) (refs : InstRefs)
       (c₂ : SubClosure),
      c₂.didUnsubscribe = false →
      (checkForUpdates sel st refs c₂).closure.lastThrownError =
        caughtError (sel st refs.lastWrapperProps)) := by
  refine ⟨rfl, Iff.rfl, fun sel st refs c₂ hsub => ?_⟩
  cases hres : sel st refs.lastWrapperProps <;>
    cases hsched : refs.renderIsScheduled <;>
      (simp [checkForUpdates, hsub, hres, hsched, caughtError]
       split <;> rfl)

/-- Witness for C10 at concrete inputs: a latched error is thrown by the
teardown; a clear latch means a normal return. -/
theorem c10_witness :
    unsubscribeWrapper ⟨false, some 6⟩ =
      ⟨⟨true, some 6⟩, true, none, some 6⟩ ∧
    (unsubscribeWrapper ⟨false, none⟩).thrown = none := by
  exact ⟨(c10_teardown_rethrows_latched_error ⟨false, some 6⟩).1,
    (c10_teardown_rethrows_latched_error ⟨false, none⟩).2.1.mpr rfl⟩
